import Mathlib

/-!
Verification development for the weewx-aprx service (`bin/user/aprx.py`,
version 0.3.0).  The service builds an APRS weather-beacon line from a
WeeWX observation packet and writes it to a file.

The embedding models:
  * Python numbers as `ℚ`, Python `None` via `Option`/`PyVal.null`;
  * `weewx.units.ValueTuple` as a record of an optional value, a unit name
    and a unit-group name;
  * the dynamically typed values stored in the service's `data` dict as
    `PyVal` (either `None`, a number, or a `ValueTuple`);
  * fallible Python evaluation (`TypeError`, `KeyError`, `AttributeError`)
    as `Except String`;
  * external collaborators (`weewx.units` conversion tables,
    `time.gmtime`/`strftime`, local-time arithmetic, the archive database)
    by their documented contracts, as noted at each definition.
-/

namespace Aprx

/-- Python `int(q)` on a float/decimal value: truncation toward zero. -/
def pyTrunc (q : ℚ) : ℤ := q.num.tdiv q.den

/-- Python `s.upper()` for the ASCII option strings involved here. -/
def str_upper (s : String) : String := String.mk (s.data.map Char.toUpper)

/-- Python `"%0Nd" % n`: decimal rendering of `n`, zero-padded on the left to
a minimum total width of `width` (the sign, if any, counts toward the
width and precedes the zeros).  Wider values are NOT truncated. -/
def pyFmtInt (width : Nat) (n : Int) : String :=
  let sign := if n < 0 then "-" else ""
  let mag := Nat.repr n.natAbs
  sign ++ String.mk (List.replicate (width - (sign.length + mag.length)) '0') ++ mag

/-- Python `''.join(fields)`. -/
def str_join : List String → String
  | [] => ""
  | s :: rest => s ++ str_join rest

/-- Day-of-month (1..31) of a Unix timestamp in UTC.  Model of the `%d`
field of `time.strftime("@%d%H%Mz", time.gmtime(ts))`, computed with the
standard civil-from-days calendar algorithm. -/
def gm_mday (ts : Nat) : Nat :=
  let z := ts / 86400 + 719468
  let doe := z % 146097
  let yoe := (doe - doe / 1460 + doe / 36524 - doe / 146096) / 365
  let doy := doe - (365 * yoe + yoe / 4 - yoe / 100)
  let mp := (5 * doy + 2) / 153
  doy - (153 * mp + 2) / 5 + 1

/-- Hour-of-day (UTC) of a Unix timestamp: the `%H` field of `time.gmtime`. -/
def gm_hour (ts : Nat) : Nat := ts / 3600 % 24

/-- Minute (UTC) of a Unix timestamp: the `%M` field of `time.gmtime`. -/
def gm_min (ts : Nat) : Nat := ts / 60 % 60

/-- `time.strftime("@%d%H%Mz", time.gmtime(ts))` (source line 538). -/
def strftime_dhmz (ts : Nat) : String :=
  "@" ++ pyFmtInt 2 (gm_mday ts) ++ pyFmtInt 2 (gm_hour ts) ++ pyFmtInt 2 (gm_min ts) ++ "z"

/-- `weewx.units.ValueTuple`: a (value, unit, unit group) triple.  The value
slot may hold Python `None`. -/
structure ValueTuple where
  value : Option ℚ
  unit : String
  group : String
deriving DecidableEq

/-- A dynamically typed Python value as stored in the service's `data`
dict: `None`, a number, or a `ValueTuple`. -/
inductive PyVal where
  | null : PyVal
  | num : ℚ → PyVal
  | tup : ValueTuple → PyVal
deriving DecidableEq

/-- `nullproof(value)` (source lines 231-237): replace `None` by `0`,
return any non-`None` value unchanged.  A `ValueTuple` is an object, never
`None`, so it passes through whole. -/
def nullproof (value : PyVal) : PyVal :=
  match value with
  | .null => .num 0
  | v => v

/-- Lift a `packet.get(key)` result (a number or `None`) to `PyVal`. -/
def pyOfOpt : Option ℚ → PyVal
  | Option.none => .null
  | Option.some q => .num q

/-- Python `int(v)`: succeeds on numbers (truncating), raises `TypeError`
on `None` and on tuples (`ValueTuple` defines no `__int__`). -/
def pyInt : PyVal → Except String ℤ
  | .num q => .ok (pyTrunc q)
  | .null => .error "TypeError: int() of None"
  | .tup _ => .error "TypeError: int() of ValueTuple"

/-- Python `int(v * c)` for a numeric literal `c` (used for the rain and
barometer fields).  On a number this truncates the product; `None * c`
raises `TypeError`; a tuple times an integer is tuple repetition, whose
`int()` then raises `TypeError`. -/
def pyIntScaled (v : PyVal) (c : ℚ) : Except String ℤ :=
  match v with
  | .num q => .ok (pyTrunc (q * c))
  | .null => .error "TypeError: unsupported operand for None"
  | .tup _ => .error "TypeError: int() of tuple"

/-- Python `v < c` for numeric `c`: raises `TypeError` unless `v` is a
number (Python 3 refuses order comparison of `None`/`tuple` with `int`). -/
def pyLtNum (v : PyVal) (c : ℚ) : Except String Bool :=
  match v with
  | .num q => .ok (decide (q < c))
  | _ => .error "TypeError: unorderable"

/-- Python `c <= v` for numeric `c`: raises `TypeError` unless `v` is a
number. -/
def pyLeNum (c : ℚ) (v : PyVal) : Except String Bool :=
  match v with
  | .num q => .ok (decide (c ≤ q))
  | _ => .error "TypeError: unorderable"

/-- `weewx.units.unit_constants`: name of a unit system to its code
(`weewx.US = 1`, `weewx.METRIC = 0x10`, `weewx.METRICWX = 0x11`).
External collaborator, modelled from the weewx documentation. -/
def unit_constants (name : String) : Option Nat :=
  if name = "US" then some 1
  else if name = "METRIC" then some 16
  else if name = "METRICWX" then some 17
  else none

/-- `weewx.units.std_groups[system][unit_group]` for the four unit groups
the service uses.  External collaborator, modelled from the weewx
documentation. -/
def std_groups (system : Nat) (unit_group : String) : Option String :=
  if system = 1 then
    if unit_group = "group_temperature" then some "degree_F"
    else if unit_group = "group_pressure" then some "inHg"
    else if unit_group = "group_speed" then some "mile_per_hour"
    else if unit_group = "group_rain" then some "inch"
    else none
  else if system = 16 then
    if unit_group = "group_temperature" then some "degree_C"
    else if unit_group = "group_pressure" then some "mbar"
    else if unit_group = "group_speed" then some "km_per_hour"
    else if unit_group = "group_rain" then some "cm"
    else none
  else if system = 17 then
    if unit_group = "group_temperature" then some "degree_C"
    else if unit_group = "group_pressure" then some "mbar"
    else if unit_group = "group_speed" then some "meter_per_second"
    else if unit_group = "group_rain" then some "mm"
    else none
  else none

/-- The unit group of each observation type the service asks
`weewx.units.getStandardUnitType` about. -/
def obs_unit_group (obs : String) : String :=
  if obs = "windSpeed" then "group_speed"
  else if obs = "outTemp" then "group_temperature"
  else if obs = "barometer" then "group_pressure"
  else if obs = "rain" then "group_rain"
  else ""

/-- `weewx.units.getStandardUnitType(system, obs)`: the standard unit of
the observation's group under the unit system; raises `KeyError` for an
unknown system.  External collaborator, modelled by its contract (the real
function returns the (unit, group) pair; only the unit is modelled). -/
def getStandardUnitType (system : Nat) (obs : String) : Except String String :=
  match std_groups system (obs_unit_group obs) with
  | some u => .ok u
  | none => .error "KeyError: unit system"

/-- Speed units in metres per second (weewx `conversionDict`, speed group). -/
def speed_in_mps (u : String) : Option ℚ :=
  if u = "meter_per_second" then some 1
  else if u = "km_per_hour" then some (mkRat 5 18)
  else if u = "mile_per_hour" then some (mkRat 1397 3125)
  else if u = "knot" then some (mkRat 463 900)
  else none

/-- Pressure units in millibar (weewx `conversionDict`, pressure group). -/
def press_in_mbar (u : String) : Option ℚ :=
  if u = "mbar" then some 1
  else if u = "hPa" then some 1
  else if u = "kPa" then some 10
  else if u = "inHg" then some (mkRat 338639 10000)
  else if u = "mmHg" then some (mkRat 1333224 1000000)
  else none

/-- Rain units in millimetres (weewx `conversionDict`, rain group). -/
def rain_in_mm (u : String) : Option ℚ :=
  if u = "mm" then some 1
  else if u = "cm" then some 10
  else if u = "inch" then some (mkRat 127 5)
  else none

/-- Temperature unit to degrees C (weewx `conversionDict`, affine maps). -/
def temp_to_c (u : String) : Option (ℚ → ℚ) :=
  if u = "degree_C" then some (fun x => x)
  else if u = "degree_F" then some (fun x => (x - 32) * 5 / 9)
  else if u = "degree_K" then some (fun x => x - mkRat 5463 20)
  else none

/-- Degrees C to a temperature unit (weewx `conversionDict`). -/
def temp_from_c (u : String) : Option (ℚ → ℚ) :=
  if u = "degree_C" then some (fun x => x)
  else if u = "degree_F" then some (fun x => x * 9 / 5 + 32)
  else if u = "degree_K" then some (fun x => x + mkRat 5463 20)
  else none

/-- A linear in-group conversion built from a to-base-unit table. -/
def scale_fn (tbl : String → Option ℚ) (src dst : String) : Option (ℚ → ℚ) :=
  match tbl src, tbl dst with
  | some a, some b => some (fun x => x * a / b)
  | _, _ => none

/-- `weewx.units.conversionDict[src][dst]`: the in-group conversion
function, or `none` when the pair is not in the dictionary.  External
collaborator, modelled from the weewx documentation. -/
def conversion_fn (src dst : String) : Option (ℚ → ℚ) :=
  match scale_fn speed_in_mps src dst with
  | some f => some f
  | none =>
    match temp_to_c src, temp_from_c dst with
    | some f, some g => some (fun x => g (f x))
    | _, _ =>
      match scale_fn press_in_mbar src dst with
      | some f => some f
      | none => scale_fn rain_in_mm src dst

/-- `weewx.units.convert(val_t, target)`: identity when the units already
match, otherwise apply the conversion function to the value (`None` is
passed through), raising `KeyError` when no conversion exists.  External
collaborator, modelled by its contract. -/
def units_convert (vt : ValueTuple) (dst : String) : Except String ValueTuple :=
  if vt.unit = dst then .ok vt
  else
    match conversion_fn vt.unit dst with
    | some f => .ok ⟨vt.value.map f, dst, vt.group⟩
    | none => .error "KeyError: conversionDict"

/-- The service's `self.units` dict (built in `__init__`, source lines
324-344): at most one target unit per unit group; a group that was never
assigned has no entry. -/
structure UnitsDict where
  group_temperature : Option String
  group_pressure : Option String
  group_speed : Option String
  group_rain : Option String
deriving DecidableEq

/-- Python dict lookup `self.units[unit_group]` as an `Option` (the caller
turns a missing key into `KeyError`). -/
def UnitsDict.get (u : UnitsDict) (g : String) : Option String :=
  if g = "group_temperature" then u.group_temperature
  else if g = "group_pressure" then u.group_pressure
  else if g = "group_speed" then u.group_speed
  else if g = "group_rain" then u.group_rain
  else none

/-- The `[WeewxAprx]` configuration stanza entries used by unit
resolution (each `Option` models presence of the key in the dict). -/
structure ConfigDict where
  unit_system : Option String
  temperature_units : Option String
  pressure_units : Option String
  speed_units : Option String
  rain_units : Option String
deriving DecidableEq

/-- `UNITS_BY_UNIT_GROUP` (source lines 218-222): the valid units of each
unit group. -/
def UNITS_BY_UNIT_GROUP (unit_group : String) : List String :=
  if unit_group = "group_temperature" then ["degree_C", "degree_F", "degree_K"]
  else if unit_group = "group_pressure" then ["hPa", "kPa", "inHg", "mmHg", "mbar"]
  else if unit_group = "group_speed" then ["km_per_hour", "mile_per_hour", "knot", "meter_per_second"]
  else if unit_group = "group_rain" then ["mm", "cm", "inch"]
  else []

/-- The configured `xxxx_units` entry for a unit group (`d['%s_units' %
group]`, source lines 326-328). -/
def ConfigDict.group_setting (d : ConfigDict) (unit_group : String) : Option String :=
  if unit_group = "group_temperature" then d.temperature_units
  else if unit_group = "group_pressure" then d.pressure_units
  else if unit_group = "group_speed" then d.speed_units
  else if unit_group = "group_rain" then d.rain_units
  else none

/-- `__init__` unit-system handling (source lines 311-321): an unknown
`unit_system` name is logged and treated as no unit system. -/
def resolve_unit_system (d : ConfigDict) : Option Nat :=
  match d.unit_system with
  | some name => unit_constants (str_upper name)
  | none => none

/-- One iteration of the `__init__` loop over `UNITS_BY_UNIT_GROUP`
(source lines 325-344): an explicit valid `xxxx_units` entry wins; an
invalid one is logged and assigns nothing (the unit-system branch is only
reached when the key is absent); with no entry the unit system, if any,
supplies the group's unit; otherwise no assignment is made. -/
def resolve_group_unit (d : ConfigDict) (unit_system : Option Nat) (unit_group : String) :
    Option String :=
  match d.group_setting unit_group with
  | some u => if u ∈ UNITS_BY_UNIT_GROUP unit_group then some u else none
  | none =>
    match unit_system with
    | some sys => std_groups sys unit_group
    | none => none

/-- The complete `self.units` dict built by `__init__`. -/
def init_units (d : ConfigDict) : UnitsDict :=
  let us := resolve_unit_system d
  ⟨resolve_group_unit d us "group_temperature",
   resolve_group_unit d us "group_pressure",
   resolve_group_unit d us "group_speed",
   resolve_group_unit d us "group_rain"⟩

/-- The APRS latitude string derived in `__init__` when no `lat` option is
configured (source lines 252-267): `math.modf` splits off integer parts
(truncation; the argument is the absolute value, so truncation and floor
agree), and each `%02d` conversion truncates its float argument. -/
def aprs_lat (latitude_f : ℚ) : String :=
  let station_lat_abs := |latitude_f|
  let degrees := pyTrunc station_lat_abs
  let frac := station_lat_abs - degrees
  let temp := frac * 60
  let minutes := pyTrunc temp
  let frac_minutes := temp - minutes
  let decimal_minutes := frac_minutes * 100
  let hemi := if 0 ≤ latitude_f then "N" else "S"
  pyFmtInt 2 degrees ++ pyFmtInt 2 minutes ++ "." ++ pyFmtInt 2 (pyTrunc decimal_minutes) ++ hemi

/-- The APRS longitude string derived in `__init__` when no `lon` option is
configured (source lines 270-285): as for latitude but with a three-digit
degree field and hemisphere `E`/`W`. -/
def aprs_lon (longitude_f : ℚ) : String :=
  let station_lon_abs := |longitude_f|
  let degrees := pyTrunc station_lon_abs
  let frac := station_lon_abs - degrees
  let temp := frac * 60
  let minutes := pyTrunc temp
  let frac_minutes := temp - minutes
  let decimal_minutes := frac_minutes * 100
  let hemi := if 0 ≤ longitude_f then "E" else "W"
  pyFmtInt 3 degrees ++ pyFmtInt 2 minutes ++ "." ++ pyFmtInt 2 (pyTrunc decimal_minutes) ++ hemi

/-- The local-time environment: `datetime.datetime.fromtimestamp` (as
seconds of naive local time), `time.mktime` (its inverse) and
`weeutil.weeutil.startOfDay` (local midnight of a timestamp's day).
External collaborators, modelled abstractly: the service only pipes
timestamps through them. -/
structure TZ where
  localOf : Nat → Int
  mkTime : Int → Int
  dayStart : Nat → Int

/-- The service object state set up by `__init__` that `calculate` and
`write_data` read.  NOTE: `__init__` assigns `self.rain_unit` (source
lines 351-355); no attribute named `rain_units` is ever assigned anywhere
in the class, which matters in `calculate`. -/
structure WeewxAprx where
  lat : String
  lon : String
  note : String
  symbol0 : Char
  symbol1 : Char
  ds_aware : Bool
  units : UnitsDict
  rain_unit : Option String
  table : List (Nat × Option ℚ)
  tz : TZ

/-- `WeewxAprx.convert` (source lines 396-403): look up the destination
unit for the tuple's group in `self.units` — a dict indexing that raises
`KeyError` when the group has no entry — then `weewx.units.convert`. -/
def WeewxAprx.convert (self : WeewxAprx) (value_vt : ValueTuple) : Except String ValueTuple :=
  let unit_group := value_vt.group
  match self.units.get unit_group with
  | some dst => units_convert value_vt dst
  | none => .error ("KeyError: " ++ unit_group)

/-- `calc_rain_in_period` (source lines 545-559): `SELECT SUM(rain) FROM
archive WHERE dateTime>? AND dateTime<=?`.  SQL `SUM` skips `NULL` cells
and yields `NULL` when no row matches, so the aggregate is `none` exactly
when no matching row has a non-null rain value. -/
def calc_rain_in_period (self : WeewxAprx) (start_ts : Int) (stop_ts : Nat) : Option ℚ :=
  let rows := self.table.filter (fun r => start_ts < (r.1 : Int) ∧ (r.1 : Nat) ≤ stop_ts)
  let vals := rows.filterMap (fun r => r.2)
  match vals with
  | [] => none
  | _ => some (vals.foldl (fun a b => a + b) 0)

/-- Start of the hour-rain window (source lines 445-455): with
`daylight_saving_aware` a 1-hour calendar delta is subtracted from the
local-time representation and `mktime` maps it back; otherwise a flat
3600 s is subtracted from the timestamp. -/
def hour_rain_start (self : WeewxAprx) (dateTime : Nat) : Int :=
  if self.ds_aware then self.tz.mkTime (self.tz.localOf dateTime - 3600)
  else (dateTime : Int) - 3600

/-- Start of the 24-hour-rain window (source lines 468-478): as for the
hour window but with a 1-day delta / flat 86400 s. -/
def rain24_start (self : WeewxAprx) (dateTime : Nat) : Int :=
  if self.ds_aware then self.tz.mkTime (self.tz.localOf dateTime - 86400)
  else (dateTime : Int) - 86400

/-- Start of the day-rain window (source line 491):
`weeutil.weeutil.startOfDay(data['dateTime'])`, with no
`daylight_saving_aware` branch. -/
def day_rain_start (self : WeewxAprx) (dateTime : Nat) : Int :=
  self.tz.dayStart dateTime

/-- An observation packet/record.  `dateTime` and `usUnits` are read
directly; the six instantaneous fields are only read with `packet.get`,
for which an absent key and a stored `None` coincide (`Option ℚ`); for the
three rain accumulators membership (`'hourRain' in packet`) matters, so
presence and nullness are separate (`Option (Option ℚ)`). -/
structure Packet where
  dateTime : Nat
  usUnits : Nat
  windDir : Option ℚ
  windSpeed : Option ℚ
  windGust : Option ℚ
  outTemp : Option ℚ
  outHumidity : Option ℚ
  barometer : Option ℚ
  hourRain : Option (Option ℚ)
  rain24 : Option (Option ℚ)
  dayRain : Option (Option ℚ)
deriving DecidableEq

/-- The `data` dict built by `calculate`: each slot holds whatever Python
value the corresponding assignment stores. -/
structure DataDict where
  dateTime : Nat
  windDir : PyVal
  windSpeed : PyVal
  windGust : PyVal
  outTemp : PyVal
  hourRain : PyVal
  rain24 : PyVal
  dayRain : PyVal
  outHumidity : PyVal
  barometer : PyVal
deriving DecidableEq

/-- One rain-accumulator block of `calculate` (the three blocks at source
lines 439-461, 462-484 and 485-497 are identical up to the window start):
a value present on the record is wrapped with the record's native rain
unit, converted, and stored through `nullproof`; otherwise the window
start is computed, the database is queried — and then the source
evaluates `self.rain_units` (lines 457-458, 480-481, 493-494), an
attribute that is never assigned (`__init__` sets `rain_unit`), raising
`AttributeError`. -/
def rain_field (self : WeewxAprx) (present : Option (Option ℚ)) (rain_unit : String)
    (start_ts : Int) (stop_ts : Nat) : Except String PyVal :=
  match present with
  | some v => do
    let rain_vt : ValueTuple := ⟨v, rain_unit, "group_rain"⟩
    let rain_conv ← self.convert rain_vt
    pure (nullproof (.tup rain_conv))
  | none =>
    let _rain := calc_rain_in_period self start_ts stop_ts
    Except.error "AttributeError: rain_units"

/-- `WeewxAprx.calculate` (source lines 405-506).  Wind speed, gust,
temperature, the three rain accumulators and the barometer are wrapped in
`ValueTuple`s, converted, and stored through `nullproof` — which, applied
to a `ValueTuple` object, returns the tuple itself. -/
def calculate (self : WeewxAprx) (packet : Packet) : Except String DataDict := do
  let speed_unit ← getStandardUnitType packet.usUnits "windSpeed"
  let temp_unit ← getStandardUnitType packet.usUnits "outTemp"
  let press_unit ← getStandardUnitType packet.usUnits "barometer"
  let rain_unit ← getStandardUnitType packet.usUnits "rain"
  let dateTime := packet.dateTime
  let windDir := nullproof (pyOfOpt packet.windDir)
  let wind_speed_vt : ValueTuple := ⟨packet.windSpeed, speed_unit, "group_speed"⟩
  let wind_speed_conv ← self.convert wind_speed_vt
  let windSpeed := nullproof (.tup wind_speed_conv)
  let gust_speed_vt : ValueTuple := ⟨packet.windGust, speed_unit, "group_speed"⟩
  let gust_speed_conv ← self.convert gust_speed_vt
  let windGust := nullproof (.tup gust_speed_conv)
  let temp_vt : ValueTuple := ⟨packet.outTemp, temp_unit, "group_temperature"⟩
  let temp_conv ← self.convert temp_vt
  let outTemp := nullproof (.tup temp_conv)
  let hourRain ← rain_field self packet.hourRain rain_unit (hour_rain_start self dateTime) dateTime
  let rain24 ← rain_field self packet.rain24 rain_unit (rain24_start self dateTime) dateTime
  let dayRain ← rain_field self packet.dayRain rain_unit (day_rain_start self dateTime) dateTime
  let outHumidity := nullproof (pyOfOpt packet.outHumidity)
  let baro_vt : ValueTuple := ⟨packet.barometer, press_unit, "group_pressure"⟩
  let baro_conv ← self.convert baro_vt
  let barometer := nullproof (.tup baro_conv)
  pure ⟨dateTime, windDir, windSpeed, windGust, outTemp, hourRain, rain24, dayRain,
        outHumidity, barometer⟩

/-- The humidity clamp of `write_data` (source lines 530-531):
`if data['outHumidity'] < 0 or 100 <= data['outHumidity']:` set it to 0. -/
def hum_clamp (h : PyVal) : Except String PyVal := do
  let lt0 ← pyLtNum h 0
  let ge100 ← pyLeNum 100 h
  pure (if lt0 || ge100 then PyVal.num 0 else h)

/-- `WeewxAprx.write_data` (source lines 508-543), up to the file system:
the returned string is exactly what the three `f.write` calls emit.  The
formatted fields are all computed before the file is opened, so any
`TypeError` from an `int()` call aborts before the file is touched. -/
def write_data (self : WeewxAprx) (data : DataDict) : Except String String := do
  let wdir ← pyInt data.windDir
  let wspd ← pyInt data.windSpeed
  let wgust ← pyInt data.windGust
  let temp ← pyInt data.outTemp
  let hrain ← pyIntScaled data.hourRain 100
  let r24 ← pyIntScaled data.rain24 100
  let drain ← pyIntScaled data.dayRain 100
  let hum ← hum_clamp data.outHumidity
  let humi ← pyInt hum
  let baro ← pyIntScaled data.barometer 10
  let fields : List String :=
    [self.lat,
     String.singleton self.symbol0,
     self.lon,
     String.singleton self.symbol1,
     pyFmtInt 3 wdir,
     "/" ++ pyFmtInt 3 wspd,
     "g" ++ pyFmtInt 3 wgust,
     "t" ++ pyFmtInt 3 temp,
     "r" ++ pyFmtInt 3 hrain,
     "p" ++ pyFmtInt 3 r24,
     "P" ++ pyFmtInt 3 drain,
     "h" ++ pyFmtInt 2 humi,
     "b" ++ pyFmtInt 5 baro,
     " " ++ self.note]
  pure (strftime_dhmz data.dateTime ++ str_join fields ++ "\n")

/-- The state `process_packet` can affect: the output file's contents. -/
structure World where
  file : String
deriving DecidableEq

/-- `process_packet` (source lines 383-394): run `calculate` then
`write_data` inside `try..except Exception`; on success the output file is
rewritten with the produced line, on any exception the error is logged
(`log_traceback_error`) and nothing is (re)raised.  Returns the resulting
world and the logged traceback, if any. -/
def process_packet (self : WeewxAprx) (packet : Packet) (w : World) : World × Option String :=
  match (do
    let data ← calculate self packet
    write_data self data : Except String String) with
  | .ok line => (⟨line⟩, Option.none)
  | .error e => (w, Option.some e)

/-- A concrete local-time environment (UTC, fixed-epoch days) for closed
evaluations. -/
def tz0 : TZ := ⟨fun t => (t : Int), fun s => s, fun t => ((t / 86400 * 86400 : Nat) : Int)⟩

/-- A service object configured as in the §8 example of the spec: location
strings `3349.50S` / `15112.34E`, symbol `/_`, note `Test`, US target
units (resolved from `unit_system = US`), an empty archive table. -/
def self_us : WeewxAprx :=
  ⟨"3349.50S", "15112.34E", "Test", '/', '_', false,
   ⟨some "degree_F", some "inHg", some "mile_per_hour", some "inch"⟩,
   some "inch", [], tz0⟩

/-- The same service object with no resolved units at all (no
`unit_system`, no `xxxx_units` options configured). -/
def self_nounits : WeewxAprx :=
  ⟨"3349.50S", "15112.34E", "Test", '/', '_', false,
   ⟨Option.none, Option.none, Option.none, Option.none⟩,
   some "inch", [], tz0⟩

/-- The §8 example record: `{dateTime: 1625140800, usUnits: US, windDir:
270, windSpeed: 5.0, outTemp: 68.0, outHumidity: 55, barometer: 29.92,
dayRain: 0.15}` (no windGust, hourRain or rain24). -/
def packet8 : Packet :=
  ⟨1625140800, 1, some 270, some 5, Option.none, some 68, some 55, some (mkRat 2992 100),
   Option.none, Option.none, some (some (mkRat 15 100))⟩

/-- The §8 example record with all three rain accumulators present and the
wind gust absent. -/
def packet_gustless : Packet :=
  ⟨1625140800, 1, some 270, some 5, Option.none, some 68, some 55, some (mkRat 2992 100),
   some (some 0), some (some 0), some (some (mkRat 15 100))⟩

/-- The normalized data set of the §8 example (all values numeric): gust,
hour rain and 24-h rain filled with 0, the rest as on the record. -/
def data8 : DataDict :=
  ⟨1625140800, .num 270, .num 5, .num 0, .num 68, .num 0, .num 0,
   .num (mkRat 15 100), .num 55, .num (mkRat 2992 100)⟩

/-- Configuration with a recognized unit-system preset and an invalid
per-group temperature unit. -/
def cfg_metric_badtemp : ConfigDict :=
  ⟨some "METRIC", some "celsius", Option.none, Option.none, Option.none⟩

end Aprx

open Aprx

deriving instance DecidableEq for Except

theorem ok_bindE {α β : Type} (a : α) (k : α → Except String β) :
    (Except.ok a >>= k) = k a := rfl

theorem error_bindE {α β : Type} (e : String) (k : α → Except String β) :
    ((Except.error e : Except String α) >>= k) = Except.error e := rfl

theorem bindE_eq_ok {α β : Type} {x : Except String α} {k : α → Except String β} {b : β} :
    (x >>= k) = Except.ok b ↔ ∃ a, x = Except.ok a ∧ k a = Except.ok b := by
  cases x with
  | error e => simp [error_bindE]
  | ok a => simp [ok_bindE]

theorem pyTrunc_eq_floor {q : ℚ} (h : 0 ≤ q) : pyTrunc q = ⌊q⌋ := by
  rw [pyTrunc, Rat.floor_def]
  exact Int.tdiv_eq_ediv (Rat.num_nonneg.mpr h) (Int.ofNat_nonneg _)

theorem pyTrunc_nonneg {q : ℚ} (h : 0 ≤ q) : 0 ≤ pyTrunc q := by
  rw [pyTrunc_eq_floor h]
  exact Int.floor_nonneg.mpr h

theorem pyFmtInt_of_nonneg {w : Nat} {n : ℤ} (h0 : 0 ≤ n) :
    pyFmtInt w n =
      String.mk (List.replicate (w - (Nat.repr n.natAbs).length) '0') ++ Nat.repr n.natAbs := by
  simp only [pyFmtInt, if_neg (not_lt.mpr h0)]
  have hempty : ("" : String).length = 0 := rfl
  rw [hempty]
  cases hmk : String.mk (List.replicate (w - (0 + (Nat.repr n.natAbs).length)) '0') with
  | mk l =>
    simp only [Nat.zero_add] at hmk ⊢
    rw [hmk]
    apply String.ext
    simp [String.data_append]

theorem pyFmtInt_length {w : Nat} {n : ℤ} (h0 : 0 ≤ n)
    (h : (Nat.repr n.natAbs).length ≤ w) : (pyFmtInt w n).length = w := by
  rw [pyFmtInt_of_nonneg h0, String.length_append, String.length_mk, List.length_replicate]
  omega

/-- C7: with `daylight_saving_aware` off, the hour/24-hour rain query
windows start at exactly `t - 3600` and `t - 86400`; with it on, each
start is `mktime` of the local-time representation of `t` minus the 1-hour
(resp. 1-day) calendar delta; and the since-midnight window start is
`startOfDay t` whatever the flag is set to. -/
theorem claim_C7 (self : WeewxAprx) (t : Nat) :
    (self.ds_aware = false →
      hour_rain_start self t = (t : Int) - 3600 ∧
      rain24_start self t = (t : Int) - 86400) ∧
    (self.ds_aware = true →
      hour_rain_start self t = self.tz.mkTime (self.tz.localOf t - 3600) ∧
      rain24_start self t = self.tz.mkTime (self.tz.localOf t - 86400)) ∧
    (∀ b : Bool, day_rain_start { self with ds_aware := b } t = self.tz.dayStart t) := by
  refine ⟨fun h => ?_, fun h => ?_, fun b => rfl⟩ <;>
    simp [hour_rain_start, rain24_start, h]

theorem claim_C7_witness :
    hour_rain_start self_us 1625140800 = 1625140800 - 3600 ∧
    rain24_start self_us 1625140800 = 1625140800 - 86400 :=
  (claim_C7 self_us 1625140800).1 rfl

/-- C5, counterexample: with `unit_system = METRIC` recognized and the
invalid `temperature_units = celsius`, unit resolution leaves the
temperature group with no unit at all — it does not fall through to the
preset's `degree_C`. -/
theorem claim_C5_cx :
    (init_units cfg_metric_badtemp).group_temperature = Option.none ∧
    resolve_unit_system cfg_metric_badtemp = some 16 ∧
    std_groups 16 "group_temperature" = some "degree_C" := by
  refine ⟨by decide, by decide, by decide⟩

/-- C5 (amended): an invalid per-group unit is logged and leaves that
group unresolved (no entry in the units dict) even when a recognized
unit-system preset was configured; resolution itself never fails. -/
theorem claim_C5 (d : ConfigDict) (sys : Nat) (g u : String)
    (_hsys : resolve_unit_system d = some sys)
    (hset : d.group_setting g = some u)
    (hbad : u ∉ UNITS_BY_UNIT_GROUP g) :
    resolve_group_unit d (resolve_unit_system d) g = Option.none := by
  simp only [resolve_group_unit, hset]
  exact if_neg hbad

theorem claim_C5_witness :
    resolve_group_unit cfg_metric_badtemp
      (resolve_unit_system cfg_metric_badtemp) "group_temperature" = Option.none :=
  claim_C5 cfg_metric_badtemp 16 "group_temperature" "celsius" (by decide) rfl (by decide)

/-- C9, counterexample: a rain value of 10.00 encodes as `int(10*100) =
1000`, and `"%03d"` renders it as the four-character `"1000"` — the field
widens; it is not truncated or wrapped to 3 characters. -/
theorem claim_C9_cx :
    pyIntScaled (PyVal.num 10) 100 = Except.ok 1000 ∧
    pyFmtInt 3 1000 = "1000" ∧
    (pyFmtInt 3 1000).length = 4 := by
  refine ⟨?_, by decide, by decide⟩
  show Except.ok (pyTrunc ((10 : ℚ) * 100)) = Except.ok 1000
  have h : (10 : ℚ) * 100 = 1000 := by norm_num
  rw [h]
  decide

/-- C9 (amended): for every rainfall value `r ≥ 0` in the resolved unit
the encoded value is `int(r*100)`; the rendering always emits the full
decimal magnitude, zero-padded on the left to a minimum of 3 digits, so
values below 10.00 occupy exactly 3 characters and larger values widen
the field instead of being truncated. -/
theorem pyTrunc_zero : pyTrunc 0 = 0 := by decide

theorem pyTrunc_lt {q : ℚ} {z : ℤ} (h0 : 0 ≤ q) (h : q < (z : ℚ)) : pyTrunc q < z := by
  rw [pyTrunc_eq_floor h0]
  exact Int.floor_lt.mpr h

/-- C8: the encoded humidity value produced by `write_data`'s clamp and
`int()` is `0` when `h < 0` or `h ≥ 100` and the truncation of `h`
otherwise; it always lies in `[0, 99]` and renders as exactly two
digits. -/
theorem claim_C8 (h : ℚ) :
    (hum_clamp (PyVal.num h) >>= pyInt) =
      Except.ok (if h < 0 ∨ 100 ≤ h then 0 else pyTrunc h) ∧
    0 ≤ (if h < 0 ∨ 100 ≤ h then (0 : ℤ) else pyTrunc h) ∧
    (if h < 0 ∨ 100 ≤ h then (0 : ℤ) else pyTrunc h) ≤ 99 ∧
    (pyFmtInt 2 (if h < 0 ∨ 100 ≤ h then (0 : ℤ) else pyTrunc h)).length = 2 := by
  have hcl : hum_clamp (PyVal.num h) =
      Except.ok (if (decide (h < 0) || decide (100 ≤ h)) = true
                 then PyVal.num 0 else PyVal.num h) := rfl
  by_cases hc : h < 0 ∨ 100 ≤ h
  · have hb : (decide (h < 0) || decide (100 ≤ h)) = true := by
      simp only [Bool.or_eq_true, decide_eq_true_eq]; exact hc
    simp only [hcl, ok_bindE, if_pos hb, if_pos hc]
    refine ⟨?_, le_refl 0, by omega, by decide⟩
    rw [show pyInt (PyVal.num 0) = Except.ok (pyTrunc 0) from rfl, pyTrunc_zero]
  · have hb : ¬ ((decide (h < 0) || decide (100 ≤ h)) = true) := by
      simp only [Bool.or_eq_true, decide_eq_true_eq]; exact hc
    have hc2 := hc
    push_neg at hc2
    obtain ⟨hge, hlt⟩ := hc2
    have htlo : 0 ≤ pyTrunc h := pyTrunc_nonneg hge
    have hthi : pyTrunc h < 100 := pyTrunc_lt hge (by exact_mod_cast hlt)
    simp only [hcl, ok_bindE, if_neg hb, if_neg hc]
    refine ⟨rfl, htlo, by omega, ?_⟩
    exact pyFmtInt_length htlo (Nat.repr_length _ 2 (by omega) (by omega))

theorem floor_sub_nonneg (q : ℚ) : 0 ≤ q - ⌊q⌋ :=
  sub_nonneg.mpr (Int.floor_le q)

theorem floor_sub_lt_one (q : ℚ) : q - ⌊q⌋ < 1 := by
  have := Int.lt_floor_add_one q
  linarith

set_option maxRecDepth 8000 in
/-- C10: with no configured `lat`/`lon` string, the startup-derived APRS
location strings consist of the truncated degrees of the absolute
coordinate (2 digits for latitude, 3 for longitude), the truncated whole
minutes (2 digits), a dot, the truncated hundredths of a minute (2
digits), and a hemisphere letter that is `N` (resp. `E`) exactly when the
signed coordinate is `≥ 0`; in particular coordinate 0 gets `N`/`E`. -/
theorem claim_C10 :
    (∀ lat : ℚ, |lat| ≤ 90 →
      aprs_lat lat =
        pyFmtInt 2 ⌊|lat|⌋ ++ pyFmtInt 2 ⌊(|lat| - ⌊|lat|⌋) * 60⌋ ++ "." ++
          pyFmtInt 2 ⌊((|lat| - ⌊|lat|⌋) * 60 - ⌊(|lat| - ⌊|lat|⌋) * 60⌋) * 100⌋ ++
          (if 0 ≤ lat then "N" else "S") ∧
      (pyFmtInt 2 ⌊|lat|⌋).length = 2 ∧
      (pyFmtInt 2 ⌊(|lat| - ⌊|lat|⌋) * 60⌋).length = 2 ∧
      (pyFmtInt 2 ⌊((|lat| - ⌊|lat|⌋) * 60 - ⌊(|lat| - ⌊|lat|⌋) * 60⌋) * 100⌋).length = 2) ∧
    (∀ lon : ℚ, |lon| ≤ 180 →
      aprs_lon lon =
        pyFmtInt 3 ⌊|lon|⌋ ++ pyFmtInt 2 ⌊(|lon| - ⌊|lon|⌋) * 60⌋ ++ "." ++
          pyFmtInt 2 ⌊((|lon| - ⌊|lon|⌋) * 60 - ⌊(|lon| - ⌊|lon|⌋) * 60⌋) * 100⌋ ++
          (if 0 ≤ lon then "E" else "W") ∧
      (pyFmtInt 3 ⌊|lon|⌋).length = 3) ∧
    aprs_lat 0 = "0000.00N" ∧ aprs_lon 0 = "00000.00E" := by
  have main : ∀ q : ℚ, 0 ≤ q →
      (pyTrunc q = ⌊q⌋ ∧ pyTrunc ((q - ⌊q⌋) * 60) = ⌊(q - ⌊q⌋) * 60⌋ ∧
        pyTrunc (((q - ⌊q⌋) * 60 - ⌊(q - ⌊q⌋) * 60⌋) * 100) =
          ⌊((q - ⌊q⌋) * 60 - ⌊(q - ⌊q⌋) * 60⌋) * 100⌋) ∧
      (0 ≤ ⌊q⌋ ∧ 0 ≤ ⌊(q - ⌊q⌋) * 60⌋ ∧ ⌊(q - ⌊q⌋) * 60⌋ < 60 ∧
        0 ≤ ⌊((q - ⌊q⌋) * 60 - ⌊(q - ⌊q⌋) * 60⌋) * 100⌋ ∧
        ⌊((q - ⌊q⌋) * 60 - ⌊(q - ⌊q⌋) * 60⌋) * 100⌋ < 100) := by
    intro q hq
    have h1 : (0 : ℚ) ≤ (q - ⌊q⌋) * 60 :=
      mul_nonneg (floor_sub_nonneg q) (by norm_num)
    have h2 : (q - ⌊q⌋) * 60 < 60 := by
      have := floor_sub_lt_one q
      nlinarith
    have h3 : (0 : ℚ) ≤ ((q - ⌊q⌋) * 60 - ⌊(q - ⌊q⌋) * 60⌋) * 100 :=
      mul_nonneg (floor_sub_nonneg _) (by norm_num)
    have h4 : ((q - ⌊q⌋) * 60 - ⌊(q - ⌊q⌋) * 60⌋) * 100 < 100 := by
      have := floor_sub_lt_one ((q - ⌊q⌋) * 60)
      nlinarith
    refine ⟨⟨pyTrunc_eq_floor hq, pyTrunc_eq_floor h1, pyTrunc_eq_floor h3⟩,
      Int.floor_nonneg.mpr hq, Int.floor_nonneg.mpr h1, ?_, Int.floor_nonneg.mpr h3, ?_⟩
    · exact Int.floor_lt.mpr (by exact_mod_cast h2)
    · exact Int.floor_lt.mpr (by exact_mod_cast h4)
  refine ⟨?_, ?_, ?_, ?_⟩
  · intro lat hlat
    obtain ⟨⟨e1, e2, e3⟩, b0, b1, b2, b3, b4⟩ := main |lat| (abs_nonneg lat)
    have hdeg : ⌊|lat|⌋ ≤ 90 := by
      calc ⌊|lat|⌋ ≤ ⌊(90 : ℚ)⌋ := Int.floor_le_floor hlat
        _ = 90 := by norm_num
    refine ⟨?_, ?_, ?_, ?_⟩
    · simp only [aprs_lat, e1, e2, e3]
    · exact pyFmtInt_length b0 (Nat.repr_length _ 2 (by omega) (by omega))
    · exact pyFmtInt_length b1 (Nat.repr_length _ 2 (by omega) (by omega))
    · exact pyFmtInt_length b3 (Nat.repr_length _ 2 (by omega) (by omega))
  · intro lon hlon
    obtain ⟨⟨e1, e2, e3⟩, b0, b1, b2, b3, b4⟩ := main |lon| (abs_nonneg lon)
    have hdeg : ⌊|lon|⌋ ≤ 180 := by
      calc ⌊|lon|⌋ ≤ ⌊(180 : ℚ)⌋ := Int.floor_le_floor hlon
        _ = 180 := by norm_num
    refine ⟨?_, ?_⟩
    · simp only [aprs_lon, e1, e2, e3]
    · exact pyFmtInt_length b0 (Nat.repr_length _ 3 (by omega) (by omega))
  · simp [aprs_lat, pyTrunc_zero]
    decide
  · simp [aprs_lon, pyTrunc_zero]
    decide

theorem claim_C10_witness :
    (pyFmtInt 2 ⌊|(-169 / 5 : ℚ)|⌋).length = 2 :=
  ((claim_C10.1 (-169 / 5) (by rw [abs_le]; constructor <;> norm_num)).2).1

/-- C2: evaluating `calculate` on the §8 record — which carries no
`hourRain` — reaches the historical-fallback branch and fails with the
`AttributeError` for `self.rain_units` (the attribute `__init__` actually
assigns is `rain_unit`), instead of producing a rainfall value. -/
theorem claim_C2 :
    calculate self_us packet8 = Except.error "AttributeError: rain_units" := by decide

/-- C3: on a record whose only missing field is the wind gust (all other
fields numeric, all rain accumulators present), the invocation does not
encode the gust as 0 — `write_data` raises `TypeError`, because
`calculate` stored converted `ValueTuple` objects (which `nullproof`
passes through whole) and `int()` rejects a tuple. -/
theorem claim_C3 :
    (calculate self_us packet_gustless >>= write_data self_us) =
      Except.error "TypeError: int() of ValueTuple" := by decide

/-- C4: with no unit system and no per-group overrides configured,
`self.units` is empty, and `calculate` on the §8 record fails with
`KeyError` at the first conversion (`self.units['group_speed']`) rather
than passing the value through in its native unit. -/
theorem claim_C4 :
    calculate self_nounits packet8 = Except.error "KeyError: group_speed" := by decide

theorem calculate_ok_windSpeed {self : WeewxAprx} {p : Packet} {d : DataDict}
    (h : calculate self p = Except.ok d) : ∃ vt, d.windSpeed = PyVal.tup vt := by
  simp only [calculate, bindE_eq_ok] at h
  obtain ⟨su, -, tu, -, pu, -, ru, -, wsc, -, gsc, -, tc, -, hr, -, r24, -, dr, -, bc, -, hfin⟩ := h
  have hd : (⟨p.dateTime, nullproof (pyOfOpt p.windDir), nullproof (.tup wsc),
      nullproof (.tup gsc), nullproof (.tup tc), hr, r24, dr,
      nullproof (pyOfOpt p.outHumidity), nullproof (.tup bc)⟩ : DataDict) = d := by
    simpa [pure, Except.pure] using hfin
  refine ⟨wsc, ?_⟩
  rw [← hd]
  rfl

theorem write_data_tup_error (self : WeewxAprx) (d : DataDict) (vt : ValueTuple)
    (hws : d.windSpeed = PyVal.tup vt) : ∃ e, write_data self d = Except.error e := by
  cases hdir : d.windDir with
  | null =>
    exact ⟨"TypeError: int() of None", by simp only [write_data, hdir, pyInt, error_bindE]⟩
  | tup v2 =>
    exact ⟨"TypeError: int() of ValueTuple", by simp only [write_data, hdir, pyInt, error_bindE]⟩
  | num q =>
    exact ⟨"TypeError: int() of ValueTuple", by
      simp only [write_data, hdir, hws, pyInt, ok_bindE, error_bindE]⟩

/-- C6: for every service state, packet and prior file contents, the
invocation's error is caught inside `process_packet` (which is total and
returns instead of raising), a traceback is logged, and the output file is
left exactly as it was — the fields are formatted before the file is
opened, so no partial output is ever produced. -/
theorem claim_C6 (self : WeewxAprx) (packet : Packet) (w : World) :
    (process_packet self packet w).1 = w ∧
    ((process_packet self packet w).2).isSome = true := by
  have hmain : ∃ e, (calculate self packet >>= write_data self) = Except.error e := by
    cases hc : calculate self packet with
    | error e => exact ⟨e, rfl⟩
    | ok d =>
      obtain ⟨vt, hvt⟩ := calculate_ok_windSpeed hc
      obtain ⟨e, he⟩ := write_data_tup_error self d vt hvt
      exact ⟨e, (ok_bindE d (write_data self)).trans he⟩
  obtain ⟨e, he⟩ := hmain
  simp [process_packet, he]

theorem pureE {α : Type} (a : α) : (pure a : Except String α) = Except.ok a := rfl

theorem write_data_numeric (self : WeewxAprx) (d : DataDict)
    (qd qs qg qt qhr q24 qdr qh qb : ℚ)
    (h1 : d.windDir = PyVal.num qd) (h2 : d.windSpeed = PyVal.num qs)
    (h3 : d.windGust = PyVal.num qg) (h4 : d.outTemp = PyVal.num qt)
    (h5 : d.hourRain = PyVal.num qhr) (h6 : d.rain24 = PyVal.num q24)
    (h7 : d.dayRain = PyVal.num qdr) (h8 : d.outHumidity = PyVal.num qh)
    (h9 : d.barometer = PyVal.num qb) :
    write_data self d = Except.ok (
      strftime_dhmz d.dateTime ++
      str_join [self.lat, String.singleton self.symbol0, self.lon,
        String.singleton self.symbol1,
        pyFmtInt 3 (pyTrunc qd),
        "/" ++ pyFmtInt 3 (pyTrunc qs),
        "g" ++ pyFmtInt 3 (pyTrunc qg),
        "t" ++ pyFmtInt 3 (pyTrunc qt),
        "r" ++ pyFmtInt 3 (pyTrunc (qhr * 100)),
        "p" ++ pyFmtInt 3 (pyTrunc (q24 * 100)),
        "P" ++ pyFmtInt 3 (pyTrunc (qdr * 100)),
        "h" ++ pyFmtInt 2 (if qh < 0 ∨ 100 ≤ qh then 0 else pyTrunc qh),
        "b" ++ pyFmtInt 5 (pyTrunc (qb * 10)),
        " " ++ self.note] ++ "\n") := by
  have hcl : hum_clamp (PyVal.num qh) =
      Except.ok (if (decide (qh < 0) || decide (100 ≤ qh)) = true
                 then PyVal.num 0 else PyVal.num qh) := rfl
  by_cases hc : qh < 0 ∨ 100 ≤ qh
  · have hb : (decide (qh < 0) || decide (100 ≤ qh)) = true := by
      simp only [Bool.or_eq_true, decide_eq_true_eq]; exact hc
    simp only [write_data, h1, h2, h3, h4, h5, h6, h7, h8, h9, pyInt, pyIntScaled,
      hcl, if_pos hb, if_pos hc, ok_bindE, pureE, pyTrunc_zero]
  · have hb : ¬ ((decide (qh < 0) || decide (100 ≤ qh)) = true) := by
      simp only [Bool.or_eq_true, decide_eq_true_eq]; exact hc
    simp only [write_data, h1, h2, h3, h4, h5, h6, h7, h8, h9, pyInt, pyIntScaled,
      hcl, if_neg hb, if_neg hc, ok_bindE, pureE]

theorem data8_line :
    write_data self_us data8 =
      Except.ok "@011200z3349.50S/15112.34E_270/005g000t068r000p000P015h55b00299 Test\n" := by
  have e15 : pyTrunc (mkRat 15 100 * 100) = 15 := by
    rw [show (mkRat 15 100 : ℚ) * 100 = 15 by norm_num [Rat.mkRat_eq_div]]
    decide
  have e0 : pyTrunc ((0 : ℚ) * 100) = 0 := by
    rw [zero_mul]; decide
  have e299 : pyTrunc (mkRat 2992 100 * 10) = 299 := by
    rw [show (mkRat 2992 100 : ℚ) * 10 = mkRat 1496 5 by norm_num [Rat.mkRat_eq_div]]
    decide
  have h := write_data_numeric self_us data8 270 5 0 68 0 0 (mkRat 15 100) 55 (mkRat 2992 100)
    rfl rfl rfl rfl rfl rfl rfl rfl rfl
  rw [h, e15, e0, e299, if_neg (by norm_num : ¬((55 : ℚ) < 0 ∨ 100 ≤ (55 : ℚ)))]
  decide

/-- C1, counterexample: the §8 example data set does NOT yield a line
beginning `@011200z3349.50S/15112.34E_270/005g000t068r000p000P015h55b29920
Test`: the barometer field is `"%05d" % int(29.92 * 10)`, i.e. `b00299`,
not `b29920`. -/
theorem claim_C1_cx :
    write_data self_us data8 =
      Except.ok "@011200z3349.50S/15112.34E_270/005g000t068r000p000P015h55b00299 Test\n" ∧
    ("@011200z3349.50S/15112.34E_270/005g000t068r000p000P015h55b29920 Test").data.isPrefixOf
      ("@011200z3349.50S/15112.34E_270/005g000t068r000p000P015h55b00299 Test\n").data = false :=
  ⟨data8_line, by decide⟩

/-- C1 (amended): for every normalized data set with numeric values the
encoder emits exactly `@DDHHMMz` (UTC day, hour, minute), the verbatim
latitude, first symbol character, verbatim longitude, second symbol
character, then the 3-digit wind direction, `/`+3-digit speed, `g`+3-digit
gust, `t`+3-digit truncated temperature, `r`/`p`/`P`+3-digit
`int(rain*100)` fields, `h`+2-digit clamped humidity, `b`+5-digit
`int(barometer*10)`, a space, the note and a newline; the §8 example
yields the line `@011200z...h55b00299 Test` (with `b00299`, the
`int(29.92*10)` encoding, in place of the claimed `b29920`). -/
theorem claim_C1 :
    (∀ (self : WeewxAprx) (d : DataDict) (qd qs qg qt qhr q24 qdr qh qb : ℚ),
      d.windDir = PyVal.num qd → d.windSpeed = PyVal.num qs → d.windGust = PyVal.num qg →
      d.outTemp = PyVal.num qt → d.hourRain = PyVal.num qhr → d.rain24 = PyVal.num q24 →
      d.dayRain = PyVal.num qdr → d.outHumidity = PyVal.num qh → d.barometer = PyVal.num qb →
      write_data self d = Except.ok (
        strftime_dhmz d.dateTime ++
        str_join [self.lat, String.singleton self.symbol0, self.lon,
          String.singleton self.symbol1,
          pyFmtInt 3 (pyTrunc qd),
          "/" ++ pyFmtInt 3 (pyTrunc qs),
          "g" ++ pyFmtInt 3 (pyTrunc qg),
          "t" ++ pyFmtInt 3 (pyTrunc qt),
          "r" ++ pyFmtInt 3 (pyTrunc (qhr * 100)),
          "p" ++ pyFmtInt 3 (pyTrunc (q24 * 100)),
          "P" ++ pyFmtInt 3 (pyTrunc (qdr * 100)),
          "h" ++ pyFmtInt 2 (if qh < 0 ∨ 100 ≤ qh then 0 else pyTrunc qh),
          "b" ++ pyFmtInt 5 (pyTrunc (qb * 10)),
          " " ++ self.note] ++ "\n")) ∧
    write_data self_us data8 =
      Except.ok "@011200z3349.50S/15112.34E_270/005g000t068r000p000P015h55b00299 Test\n" :=
  ⟨fun self d qd qs qg qt qhr q24 qdr qh qb h1 h2 h3 h4 h5 h6 h7 h8 h9 =>
    write_data_numeric self d qd qs qg qt qhr q24 qdr qh qb h1 h2 h3 h4 h5 h6 h7 h8 h9,
   data8_line⟩

theorem claim_C1_witness :
    write_data self_us data8 = Except.ok (
      strftime_dhmz data8.dateTime ++
      str_join [self_us.lat, String.singleton self_us.symbol0, self_us.lon,
        String.singleton self_us.symbol1,
        pyFmtInt 3 (pyTrunc 270),
        "/" ++ pyFmtInt 3 (pyTrunc 5),
        "g" ++ pyFmtInt 3 (pyTrunc 0),
        "t" ++ pyFmtInt 3 (pyTrunc 68),
        "r" ++ pyFmtInt 3 (pyTrunc (0 * 100)),
        "p" ++ pyFmtInt 3 (pyTrunc (0 * 100)),
        "P" ++ pyFmtInt 3 (pyTrunc (mkRat 15 100 * 100)),
        "h" ++ pyFmtInt 2 (if (55 : ℚ) < 0 ∨ 100 ≤ (55 : ℚ) then 0 else pyTrunc 55),
        "b" ++ pyFmtInt 5 (pyTrunc (mkRat 2992 100 * 10)),
        " " ++ self_us.note] ++ "\n") :=
  claim_C1.1 self_us data8 270 5 0 68 0 0 (mkRat 15 100) 55 (mkRat 2992 100)
    rfl rfl rfl rfl rfl rfl rfl rfl rfl

theorem claim_C9 (r : ℚ) (hr : 0 ≤ r) :
    pyIntScaled (PyVal.num r) 100 = Except.ok (pyTrunc (r * 100)) ∧
    0 ≤ pyTrunc (r * 100) ∧
    pyFmtInt 3 (pyTrunc (r * 100)) =
      String.mk (List.replicate (3 - (Nat.repr (pyTrunc (r * 100)).natAbs).length) '0') ++
        Nat.repr (pyTrunc (r * 100)).natAbs ∧
    ((pyTrunc (r * 100)).natAbs < 1000 →
      (pyFmtInt 3 (pyTrunc (r * 100))).length = 3) := by
  have hmul : (0 : ℚ) ≤ r * 100 := by positivity
  have h0 : 0 ≤ pyTrunc (r * 100) := pyTrunc_nonneg hmul
  refine ⟨rfl, h0, pyFmtInt_of_nonneg h0, fun hlt => ?_⟩
  exact pyFmtInt_length h0 (Nat.repr_length _ 3 (by omega) (by omega))

theorem claim_C9_witness :
    pyIntScaled (PyVal.num (mkRat 15 100)) 100 = Except.ok (pyTrunc (mkRat 15 100 * 100)) ∧
    0 ≤ pyTrunc (mkRat 15 100 * 100) :=
  ⟨(claim_C9 (mkRat 15 100) (by decide)).1, (claim_C9 (mkRat 15 100) (by decide)).2.1⟩
